import Mathlib

/-!
Shallow embedding of `nemo/collections/nlp/modules/common/megatron/token_level_encoder_decoder.py`
(`MegatronTokenLevelEncoderDecoderModule` and its collaborators' interfaces).

Tensors are modelled symbolically: a `Tensor` carries an expression tree
(identity of the computation that produced it), a shape, and a dtype.
External collaborators (the `Embedding` layer, `T5RelativePositionEmbedding`,
the `MegatronTransformerEncoderDecoderModule` coordinator, the output head and
`vocab_parallel_cross_entropy`) are modelled by their interface contracts:
each produces a fresh symbolic node, propagates shapes in the documented
sequence-major convention, and propagates dtypes from the model precision.

Embedding tables are modelled with an explicit heap (`embHeap`) indexed by
`Nat` references, so that the aliasing of `self.decoder_embedding =
self.encoder_embedding` (weight sharing) is an actual shared reference.

`forward` additionally returns the list of collaborator calls it performed
(`Event`s), mirroring call-count instrumentation on the collaborators.
-/

namespace NemoT5

/-- Torch dtypes that matter to this module (`torch.half` is `float16`). -/
inductive DType where
  | float32
  | float16
  | int64
deriving DecidableEq, Repr

/-- Dtype of parameters/activations produced by collaborators, as a function of
the `precision` constructor argument (16 means half precision). -/
def dtypeOfPrecision (p : Nat) : DType :=
  if p = 16 then DType.float16 else DType.float32

/-- Symbolic tensor expressions: one constructor per tensor-producing
operation appearing in the source module or in a collaborator call. -/
inductive TExpr where
  | sym : String → TExpr
  | posIds : TExpr → TExpr
  | embed : Nat → TExpr → Option TExpr → Option TExpr → TExpr
  | relPosBias : String → Nat → Nat → TExpr
  | transpose01 : TExpr → TExpr
  | toFloat : TExpr → TExpr
  | encodeOut : Option TExpr → Option TExpr → TExpr
  | coordDecOut : List (Option TExpr) → TExpr
  | coordEncOut : List (Option TExpr) → TExpr
  | coordSingleOut : List (Option TExpr) → TExpr
  | headSharedOut : TExpr → TExpr
  | headLinearOut : TExpr → TExpr
  | xentOut : TExpr → TExpr → TExpr

/-- A tensor: the symbolic expression that produced it, its shape, its dtype. -/
structure Tensor where
  expr : TExpr
  shape : List Nat
  dtype : DType

/-- `t.transpose(0, 1)`: swap the first two axes. -/
def Tensor.transpose01 (t : Tensor) : Tensor :=
  { expr := TExpr.transpose01 t.expr,
    shape := match t.shape with
      | a :: b :: r => b :: a :: r
      | s => s,
    dtype := t.dtype }

/-- `t.float()`: cast to full precision. -/
def Tensor.toFloat (t : Tensor) : Tensor :=
  { expr := TExpr.toFloat t.expr, shape := t.shape, dtype := DType.float32 }

/-- `t.size(1)`. -/
def size1 (t : Tensor) : Nat := t.shape.getD 1 0

/-- Python exceptions raised by the module or by attribute/None misuse. -/
inductive PyError where
  | valueError : String → PyError
  | assertionError : String → PyError
  | exception : String → PyError
  | attributeError : String → PyError
deriving DecidableEq, Repr

/-- The constructor arguments of `MegatronTokenLevelEncoderDecoderModule`
that this embedding tracks (others are passed through to collaborators). -/
structure Config where
  vocab_size : Nat
  hidden_size : Nat
  max_position_embeddings : Nat
  num_layers : Nat
  num_attention_heads : Nat
  ffn_hidden_size : Nat
  kv_channels : Option Nat := none
  num_tokentypes : Nat := 0
  parallel_output : Bool := true
  pre_process : Bool := true
  post_process : Bool := true
  fp16_cross_entropy : Bool := false
  position_embedding_type : String := "learned_absolute"
  relative_attention_num_buckets : Nat := 32
  relative_attention_max_distance : Nat := 128
  relative_position_bias_self_attention_only : Bool := false
  precision : Nat := 16
  add_encoder : Bool := true
  add_decoder : Bool := true
  share_token_embeddings : Bool := true
  share_decoder_tokens_head_embeddings : Bool := true

/-- The two forms of output head built at lines 317-328 of the source:
`MegatronTokenLevelHead` (tied to the word embeddings) or a
`ColumnParallelLinear` projection. -/
inductive HeadKind where
  | sharedHead
  | linearHead
deriving DecidableEq, Repr

/-- The constructed module state. `embHeap` is the heap of embedding weight
tables; `encoder_embedding` / `decoder_embedding` are references into it
(so sharing is reference equality). The `encoderInputTensor` /
`decoderInputTensor` / `encoder_hidden_state` fields are the mutable state of
`enc_dec_model.encoder`, `enc_dec_model.decoder` and
`enc_dec_model.encoder_hidden_state` touched by `set_input_tensor`. -/
structure Model where
  parallel_output : Bool
  pre_process : Bool
  post_process : Bool
  fp16_cross_entropy : Bool
  precision : Nat
  add_encoder : Bool
  add_decoder : Bool
  position_embedding_type : String
  relative_position_bias_self_attention_only : Bool
  share_token_embeddings : Bool
  share_decoder_tokens_head_embeddings : Bool
  vocab_size : Nat
  hidden_size : Nat
  num_attention_heads : Nat
  kv_channels : Nat
  embHeap : List (Nat → Nat → Int)
  encoder_embedding : Option Nat
  decoder_embedding : Option Nat
  has_encoder_relative_position_embedding : Bool
  has_decoder_relative_position_embedding : Bool
  has_decoder_cross_attention_relative_position_embedding : Bool
  tokens_head : Option HeadKind
  encoder_present : Bool
  decoder_present : Bool
  encoderInputTensor : Option Tensor
  decoderInputTensor : Option Tensor
  encoder_hidden_state : Option Tensor
deriving Inhabited

/-- The all-zero weight table produced by `Embedding.zero_parameters()`. -/
def zeroWeights : Nat → Nat → Int := fun _ _ => 0

/-- Validation of `position_embedding_type` (source lines 147-152). -/
def checkPosType (s : String) : Except PyError Unit :=
  if s = "learned_absolute" then Except.ok ()
  else if s = "relative" then Except.ok ()
  else Except.error (PyError.valueError
    "Unknown position embeeding type. Options: [learned_absolute | relative]")

/-- `kv_channels` resolution (source lines 155-159): assert divisibility and
derive the per-head dimension when unset. -/
def resolveKv (cfg : Config) : Except PyError Nat :=
  match cfg.kv_channels with
  | some k => Except.ok k
  | none =>
    if cfg.hidden_size % cfg.num_attention_heads = 0 then
      Except.ok (cfg.hidden_size / cfg.num_attention_heads)
    else
      Except.error (PyError.assertionError
        "hidden_size must be divisible by num_attention_heads if kv_channels is None")

/-- Sub-component assembly of `__init__` (source lines 161-330), after
validation has passed. `initF` supplies the random initial values a fresh
`Embedding` would draw: `initF allocId i j` is the initial weight at row `i`,
column `j` of the `allocId`-th allocated table. -/
def buildModel (cfg : Config) (kv : Nat) (initF : Nat → Nat → Nat → Int) : Model :=
  let isRel := cfg.position_embedding_type = "relative"
  let encPre := cfg.add_encoder && cfg.pre_process
  let heap1 : List (Nat → Nat → Int) := if encPre then [initF 0] else []
  let encEmb : Option Nat := if encPre then some 0 else none
  let decPre := cfg.add_decoder && cfg.pre_process
  let shareLocal := encPre && cfg.share_token_embeddings
  let heap2 : List (Nat → Nat → Int) :=
    if decPre && !shareLocal then
      heap1 ++ [if cfg.share_token_embeddings then zeroWeights else initF heap1.length]
    else heap1
  let decEmb : Option Nat :=
    if decPre then (if shareLocal then encEmb else some heap1.length) else none
  { parallel_output := cfg.parallel_output,
    pre_process := cfg.pre_process,
    post_process := cfg.post_process,
    fp16_cross_entropy := cfg.fp16_cross_entropy,
    precision := cfg.precision,
    add_encoder := cfg.add_encoder,
    add_decoder := cfg.add_decoder,
    position_embedding_type := cfg.position_embedding_type,
    relative_position_bias_self_attention_only := cfg.relative_position_bias_self_attention_only,
    share_token_embeddings := cfg.share_token_embeddings,
    share_decoder_tokens_head_embeddings := cfg.share_decoder_tokens_head_embeddings,
    vocab_size := cfg.vocab_size,
    hidden_size := cfg.hidden_size,
    num_attention_heads := cfg.num_attention_heads,
    kv_channels := kv,
    embHeap := heap2,
    encoder_embedding := encEmb,
    decoder_embedding := decEmb,
    has_encoder_relative_position_embedding := encPre && isRel,
    has_decoder_relative_position_embedding := decPre && isRel,
    has_decoder_cross_attention_relative_position_embedding :=
      decPre && isRel && !cfg.relative_position_bias_self_attention_only,
    tokens_head :=
      if cfg.add_decoder && cfg.post_process then
        some (if cfg.share_decoder_tokens_head_embeddings then HeadKind.sharedHead
              else HeadKind.linearHead)
      else none,
    encoder_present := cfg.add_encoder,
    decoder_present := cfg.add_decoder,
    encoderInputTensor := none,
    decoderInputTensor := none,
    encoder_hidden_state := none }

/-- `MegatronTokenLevelEncoderDecoderModule.__init__`: validate, then build. -/
def mkModel (cfg : Config) (initF : Nat → Nat → Nat → Int) : Except PyError Model := do
  checkPosType cfg.position_embedding_type
  let kv ← resolveKv cfg
  pure (buildModel cfg kv initF)

/-- Overwrite the weight table at heap reference `r` (an in-place update of
an `Embedding`'s parameters, e.g. an optimizer step). -/
def Model.writeEmbedding (m : Model) (r : Nat) (w : Nat → Nat → Int) : Model :=
  { m with embHeap := m.embHeap.set r w }

/-- Read one weight of the table at heap reference `r`. -/
def Model.embeddingWeight (m : Model) (r : Nat) (i j : Nat) : Option Int :=
  (m.embHeap.get? r).map (fun f => f i j)

/-- Argument of `set_input_tensor`: the pipeline runtime usually passes a
list, but some inference code passes a bare tensor or `None`. -/
inductive InputArg where
  | single : Option Tensor → InputArg
  | list : List (Option Tensor) → InputArg

/-- `MegatronTokenLevelEncoderDecoderModule.set_input_tensor`
(source lines 332-358), translated branch by branch. -/
def Model.set_input_tensor (m : Model) (input : InputArg) : Except PyError Model :=
  let ts : List (Option Tensor) :=
    match input with
    | InputArg.single t => [t]
    | InputArg.list l => l
  if m.add_encoder && m.add_decoder then
    match ts with
    | [t] => Except.ok { m with encoderInputTensor := t }
    | _ => Except.error (PyError.assertionError
        "input_tensor should only be length 1 for stage with both encoder and decoder")
  else if m.add_encoder then
    match ts with
    | [t] => Except.ok { m with encoderInputTensor := t }
    | _ => Except.error (PyError.assertionError
        "input_tensor should only be length 1 for stage with only encoder")
  else if m.add_decoder then
    match ts with
    | [t0, t1] => Except.ok { m with decoderInputTensor := t0, encoder_hidden_state := t1 }
    | [t] => Except.ok { m with decoderInputTensor := none, encoder_hidden_state := t }
    | _ => Except.error (PyError.exception "input_tensor must have either length 1 or 2")
  else
    Except.error (PyError.exception "Stage must have at least either encoder or decoder")

/-- Boolean success test for a fallible operation. -/
def isOkE {α : Type} (r : Except PyError α) : Bool :=
  match r with
  | Except.ok _ => true
  | Except.error _ => false

/-- One collaborator call performed during `forward`; `forward` returns the
list of calls it made, in order, mirroring call-count instrumentation. -/
inductive Event where
  | encoderEmbeddingCall
  | encoderRelPosBiasCall
  | encodeCall
  | decoderEmbeddingCall
  | decoderRelPosBiasCall
  | decoderCrossRelPosBiasCall
  | coordForwardCall
  | headCall
  | crossEntropyCall : DType → Event
deriving DecidableEq, Repr

/-- `build_position_ids(token_ids)`: integer position grid of the same shape. -/
def build_position_ids (ids : Tensor) : Tensor :=
  { expr := TExpr.posIds ids.expr, shape := ids.shape, dtype := DType.int64 }

/-- The `Embedding` collaborator's forward: token ids `[batch, seq]` become a
sequence-major activation `[seq, batch, hidden_size]` in the model precision. -/
def embedForward (m : Model) (ref : Nat) (ids : Tensor)
    (pos : Option Tensor) (tt : Option Tensor) : Tensor :=
  { expr := TExpr.embed ref ids.expr (pos.map Tensor.expr) (tt.map Tensor.expr),
    shape := match ids.shape with
      | [b, s] => [s, b, m.hidden_size]
      | s => s,
    dtype := dtypeOfPrecision m.precision }

/-- The `T5RelativePositionEmbedding` collaborator's forward: a bias over a
`[num_heads, query_len, key_len]` grid. -/
def relPosBiasForward (m : Model) (name : String) (qlen klen : Nat) : Tensor :=
  { expr := TExpr.relPosBias name qlen klen,
    shape := [m.num_attention_heads, qlen, klen],
    dtype := dtypeOfPrecision m.precision }

/-- `enc_dec_model.encode`: the encoder stack maps a sequence-major input to a
sequence-major hidden state of the same shape. -/
def coordEncode (m : Model) (enc_input : Option Tensor) (enc_attn_mask : Option Tensor) : Tensor :=
  { expr := TExpr.encodeOut (enc_input.map Tensor.expr) (enc_attn_mask.map Tensor.expr),
    shape := match enc_input with
      | some t => t.shape
      | none => match m.encoderInputTensor with
        | some t => t.shape
        | none => [],
    dtype := dtypeOfPrecision m.precision }

/-- Arguments handed to the coordinator (`enc_dec_model.__call__`). -/
structure CoordArgs where
  enc_input : Option Tensor
  enc_attn_mask : Option Tensor
  dec_input : Option Tensor
  dec_attn_mask : Option Tensor
  enc_output : Option Tensor
  enc_output_attn_mask : Option Tensor
  enc_rel : Option Tensor
  dec_rel : Option Tensor
  dec_cross_rel : Option Tensor

/-- Flatten the coordinator arguments into symbolic form. -/
def coordArgExprs (a : CoordArgs) : List (Option TExpr) :=
  [a.enc_input.map Tensor.expr, a.enc_attn_mask.map Tensor.expr,
   a.dec_input.map Tensor.expr, a.dec_attn_mask.map Tensor.expr,
   a.enc_output.map Tensor.expr, a.enc_output_attn_mask.map Tensor.expr,
   a.enc_rel.map Tensor.expr, a.dec_rel.map Tensor.expr,
   a.dec_cross_rel.map Tensor.expr]

/-- Coordinator result: a `(decoder_output, encoder_output)` pair when a
decoder is present on this stage, a single encoder output otherwise. -/
inductive CoordOut where
  | single : Tensor → CoordOut
  | pair : Tensor → Tensor → CoordOut

/-- The coordinator collaborator's forward contract: the decoder output is
sequence-major with the decoder input's shape; dtypes follow precision. -/
def coordForward (m : Model) (a : CoordArgs) : CoordOut :=
  let es := coordArgExprs a
  let encShape : List Nat :=
    match a.enc_output with
    | some t => t.shape
    | none => match a.enc_input with
      | some t => t.shape
      | none => match m.encoderInputTensor with
        | some t => t.shape
        | none => []
  if m.decoder_present then
    let decShape : List Nat :=
      match a.dec_input with
      | some t => t.shape
      | none => match m.decoderInputTensor with
        | some t => t.shape
        | none => []
    CoordOut.pair
      { expr := TExpr.coordDecOut es, shape := decShape, dtype := dtypeOfPrecision m.precision }
      { expr := TExpr.coordEncOut es, shape := encShape, dtype := dtypeOfPrecision m.precision }
  else
    CoordOut.single
      { expr := TExpr.coordSingleOut es, shape := encShape, dtype := dtypeOfPrecision m.precision }

/-- The output head's forward: project `[seq, batch, hidden]` decoder states
to `[seq, batch, vocab_size]` logits (tied weights or independent linear). -/
def headForward (m : Model) (k : HeadKind) (dec_output : Tensor) : Tensor :=
  { expr := match k with
      | HeadKind.sharedHead => TExpr.headSharedOut dec_output.expr
      | HeadKind.linearHead => TExpr.headLinearOut dec_output.expr,
    shape := dec_output.shape.dropLast ++ [m.vocab_size],
    dtype := dec_output.dtype }

/-- `tensor_parallel.vocab_parallel_cross_entropy`: per-token loss, dropping
the vocabulary axis of the logits. -/
def vocab_parallel_cross_entropy (logits labels : Tensor) : Tensor :=
  { expr := TExpr.xentOut logits.expr labels.expr,
    shape := logits.shape.dropLast,
    dtype := DType.float32 }

/-- The keyword arguments of `forward` (source lines 360-371). -/
structure FwdArgs where
  enc_input_ids : Option Tensor := none
  enc_attn_mask : Option Tensor := none
  dec_input_ids : Option Tensor := none
  dec_attn_mask : Option Tensor := none
  token_type_ids : Option Tensor := none
  labels : Option Tensor := none
  enc_output : Option Tensor := none
  enc_output_attn_mask : Option Tensor := none
  enc_input : Option Tensor := none
  output_enc_hidden_only : Bool := false

/-- Encoder input resolution (source lines 384-398): embed the encoder token
ids when this pre-process stage owns an encoder, computing position ids only
in the absolute-position mode and the encoder self-attention bias only in the
relative mode. Returns the resolved `enc_input`, the bias, and the calls made. -/
def encInputResolve (m : Model) (a : FwdArgs) :
    Except PyError (Option Tensor × Option Tensor × List Event) :=
  if a.enc_input.isNone && a.enc_input_ids.isSome then
    if m.pre_process && m.add_encoder then
      match a.enc_input_ids with
      | none => Except.error (PyError.attributeError "enc_input_ids is None")
      | some ids =>
        match m.encoder_embedding with
        | none => Except.error (PyError.attributeError "encoder_embedding")
        | some r =>
          let enc_position_ids : Option Tensor :=
            if m.position_embedding_type ≠ "relative" then some (build_position_ids ids)
            else none
          let enc_input := embedForward m r ids enc_position_ids a.token_type_ids
          if m.position_embedding_type = "relative" then
            if m.has_encoder_relative_position_embedding then
              Except.ok (some enc_input,
                some (relPosBiasForward m "enc_self" (size1 ids) (size1 ids)),
                [Event.encoderEmbeddingCall, Event.encoderRelPosBiasCall])
            else Except.error (PyError.attributeError "encoder_relative_position_embedding")
          else
            Except.ok (some enc_input, none, [Event.encoderEmbeddingCall])
    else
      Except.ok (none, none, [])
  else
    Except.ok (a.enc_input, none, [])

/-- Decoder input resolution (source lines 413-429): embed the decoder token
ids when this pre-process stage owns a decoder (position ids are always
computed), plus the decoder self-attention bias and, unless self-attention
only, the cross-attention bias in the relative mode. -/
def decInputResolve (m : Model) (a : FwdArgs) :
    Except PyError (Option Tensor × Option Tensor × Option Tensor × List Event) :=
  if m.pre_process && m.add_decoder then
    match a.dec_input_ids with
    | none => Except.error (PyError.attributeError "NoneType object has no attribute size")
    | some ids =>
      match m.decoder_embedding with
      | none => Except.error (PyError.attributeError "decoder_embedding")
      | some r =>
        let dec_position_ids := build_position_ids ids
        let dec_input := embedForward m r ids (some dec_position_ids) a.token_type_ids
        if m.position_embedding_type = "relative" then
          if m.has_decoder_relative_position_embedding then
            let sb := relPosBiasForward m "dec_self" (size1 ids) (size1 ids)
            if !m.relative_position_bias_self_attention_only then
              if m.has_decoder_cross_attention_relative_position_embedding then
                match a.enc_input_ids with
                | none =>
                  Except.error (PyError.attributeError "NoneType object has no attribute size")
                | some eids =>
                  Except.ok (some dec_input, some sb,
                    some (relPosBiasForward m "dec_cross" (size1 ids) (size1 eids)),
                    [Event.decoderEmbeddingCall, Event.decoderRelPosBiasCall,
                     Event.decoderCrossRelPosBiasCall])
              else
                Except.error
                  (PyError.attributeError "decoder_cross_attention_relative_position_embedding")
            else
              Except.ok (some dec_input, some sb, none,
                [Event.decoderEmbeddingCall, Event.decoderRelPosBiasCall])
          else Except.error (PyError.attributeError "decoder_relative_position_embedding")
        else
          Except.ok (some dec_input, none, none, [Event.decoderEmbeddingCall])
  else
    Except.ok (none, none, none, [])

/-- Result of `forward`: a single tensor (possibly Python `None`), or the raw
coordinator tuple when the code returns it unchanged. -/
inductive FwdOut where
  | tensor : Option Tensor → FwdOut
  | pair : Tensor → Tensor → FwdOut

/-- `MegatronTokenLevelEncoderDecoderModule.forward` (source lines 360-484),
translated branch by branch, also returning the collaborator calls made. -/
def Model.forward (m : Model) (a : FwdArgs) : Except PyError (FwdOut × List Event) :=
  match encInputResolve m a with
  | Except.error e => Except.error e
  | Except.ok (enc_input, enc_rel, ev1) =>
    if a.output_enc_hidden_only then
      if a.enc_output.isNone && m.encoder_present then
        Except.ok (FwdOut.tensor (some (coordEncode m enc_input a.enc_attn_mask)),
          ev1 ++ [Event.encodeCall])
      else
        Except.ok (FwdOut.tensor m.encoder_hidden_state, ev1)
    else
      match decInputResolve m a with
      | Except.error e => Except.error e
      | Except.ok (dec_input, dec_rel, dec_cross_rel, ev2) =>
        let enc_output_attn_mask : Option Tensor :=
          match a.enc_output_attn_mask with
          | some x => some x
          | none => a.enc_attn_mask
        let enc_output2 := a.enc_output.map Tensor.transpose01
        let cargs : CoordArgs :=
          { enc_input := enc_input, enc_attn_mask := a.enc_attn_mask,
            dec_input := dec_input, dec_attn_mask := a.dec_attn_mask,
            enc_output := enc_output2, enc_output_attn_mask := enc_output_attn_mask,
            enc_rel := enc_rel, dec_rel := dec_rel, dec_cross_rel := dec_cross_rel }
        let output := coordForward m cargs
        let ev := ev1 ++ ev2 ++ [Event.coordForwardCall]
        if m.post_process && m.add_decoder then
          match output with
          | CoordOut.single _ => Except.error (PyError.exception "cannot unpack a tensor")
          | CoordOut.pair dec_output _enc =>
            match m.tokens_head with
            | none => Except.error (PyError.attributeError "tokens_head")
            | some k =>
              let token_logits := headForward m k dec_output
              let ev3 := ev ++ [Event.headCall]
              match a.labels with
              | some lab =>
                let labT := lab.transpose01
                if m.fp16_cross_entropy then
                  if token_logits.dtype = DType.float16 then
                    Except.ok (FwdOut.tensor
                      (some ((vocab_parallel_cross_entropy token_logits labT).transpose01)),
                      ev3 ++ [Event.crossEntropyCall token_logits.dtype])
                  else
                    Except.error (PyError.assertionError "token_logits.dtype == torch.half")
                else
                  let fl := token_logits.toFloat
                  Except.ok (FwdOut.tensor
                    (some ((vocab_parallel_cross_entropy fl labT).transpose01)),
                    ev3 ++ [Event.crossEntropyCall fl.dtype])
              | none =>
                Except.ok (FwdOut.tensor (some token_logits.transpose01), ev3)
        else if m.add_decoder && !m.add_encoder then
          match output with
          | CoordOut.pair d _ => Except.ok (FwdOut.tensor (some d), ev)
          | CoordOut.single _ => Except.error (PyError.exception "cannot unpack a tensor")
        else
          match output with
          | CoordOut.single e => Except.ok (FwdOut.tensor (some e), ev)
          | CoordOut.pair d e => Except.ok (FwdOut.pair d e, ev)

/-- The structured four-section state mapping produced by
`state_dict_for_save_checkpoint` (source lines 486-505). Embedding sections
carry the weight tables; the coordinator and head sections are opaque here
(their internals belong to external collaborators). -/
structure TLStateDict where
  encoder_embedding : Nat → Nat → Int
  decoder_embedding : Nat → Nat → Int
  enc_dec_model : Unit
  tokens_head : Unit

/-- `state_dict_for_save_checkpoint`: reads all four sub-components
unconditionally, so it raises AttributeError on a stage that lacks one. -/
def Model.state_dict_for_save_checkpoint (m : Model) : Except PyError TLStateDict :=
  match m.encoder_embedding with
  | none => Except.error (PyError.attributeError "encoder_embedding")
  | some re =>
    match m.embHeap.get? re with
    | none => Except.error (PyError.attributeError "encoder_embedding")
    | some ew =>
      match m.decoder_embedding with
      | none => Except.error (PyError.attributeError "decoder_embedding")
      | some rd =>
        match m.embHeap.get? rd with
        | none => Except.error (PyError.attributeError "decoder_embedding")
        | some dw =>
          match m.tokens_head with
          | none => Except.error (PyError.attributeError "tokens_head")
          | some _ =>
            Except.ok { encoder_embedding := ew, decoder_embedding := dw,
                        enc_dec_model := (), tokens_head := () }

/-- `load_state_dict` (source lines 507-513): its first statement is
`self.encoder_embedding.encoder_embeddingload_state_dict(...)`. The
`Embedding` class has no attribute named `encoder_embeddingload_state_dict`,
so the attribute lookup raises AttributeError before any section has been
written back; no sub-component is ever restored. -/
def Model.load_state_dict (m : Model) (sd : TLStateDict) (strict : Bool) : Except PyError Model :=
  match sd, strict, m.encoder_embedding with
  | _, _, none => Except.error (PyError.attributeError "encoder_embedding")
  | _, _, some _ => Except.error (PyError.attributeError
      "Embedding object has no attribute encoder_embeddingload_state_dict")

/-! ### Concrete fixtures used by witnesses -/

/-- A deterministic stand-in for the random embedding initializer: every
freshly drawn weight is 1 (visibly different from the zero initialization). -/
def initOne : Nat → Nat → Nat → Int := fun _ _ _ => 1

/-- A full single-stage configuration (encoder and decoder both local,
pre- and post-process), absolute positions, shared embeddings. -/
def fullConfig (v : Nat) : Config :=
  { vocab_size := v, hidden_size := 8, max_position_embeddings := 16, num_layers := 2,
    num_attention_heads := 2, ffn_hidden_size := 32, kv_channels := some 4 }

/-- The module built from `fullConfig 7`. -/
def fullModel : Model := buildModel (fullConfig 7) 4 initOne

/-- A decoder-only stage configuration. -/
def decOnlyConfig : Config := { fullConfig 7 with add_encoder := false }

/-- The module built from `decOnlyConfig`. -/
def decOnlyModel : Model := buildModel decOnlyConfig 4 initOne

/-- A concrete activation tensor. -/
def tA : Tensor := { expr := TExpr.sym "tA", shape := [5, 2, 8], dtype := DType.float16 }

/-- Another concrete activation tensor. -/
def tB : Tensor := { expr := TExpr.sym "tB", shape := [5, 2, 8], dtype := DType.float16 }

/-! ### Claim theorems -/

/-- C3: on a decoder-only stage (`add_decoder=True`, `add_encoder=False`),
`set_input_tensor [t0, t1]` sets the decoder's received input to `t0` and the
coordinator's stored encoder hidden state to `t1`; `set_input_tensor [t0]`
sets the decoder's received input to `None` and the stored hidden state
to `t0`. -/
theorem set_input_tensor_decoder_only_routing (m : Model) (t0 t1 : Tensor)
    (he : m.add_encoder = false) (hd : m.add_decoder = true) :
    m.set_input_tensor (InputArg.list [some t0, some t1]) =
      Except.ok { m with decoderInputTensor := some t0, encoder_hidden_state := some t1 } ∧
    m.set_input_tensor (InputArg.list [some t0]) =
      Except.ok { m with decoderInputTensor := none, encoder_hidden_state := some t0 } := by
  constructor <;> simp [Model.set_input_tensor, he, hd]

/-- Witness for C3 on a concretely built decoder-only module. -/
theorem set_input_tensor_decoder_only_routing_witness :
    decOnlyModel.set_input_tensor (InputArg.list [some tA, some tB]) =
      Except.ok { decOnlyModel with decoderInputTensor := some tA,
                                    encoder_hidden_state := some tB } ∧
    decOnlyModel.set_input_tensor (InputArg.list [some tA]) =
      Except.ok { decOnlyModel with decoderInputTensor := none,
                                    encoder_hidden_state := some tA } :=
  set_input_tensor_decoder_only_routing decOnlyModel tA tB rfl rfl

/-- C4: for every list argument, `set_input_tensor` succeeds exactly when the
stage has an encoder and the list has length 1, or the stage is decoder-only
and the list has length 1 or 2; a stage with neither always fails. -/
theorem set_input_tensor_ok_iff (m : Model) (ts : List (Option Tensor)) :
    isOkE (m.set_input_tensor (InputArg.list ts)) = true ↔
      ((m.add_encoder = true ∧ ts.length = 1) ∨
       (m.add_encoder = false ∧ m.add_decoder = true ∧
        (ts.length = 1 ∨ ts.length = 2))) := by
  cases hae : m.add_encoder <;> cases had : m.add_decoder <;>
    rcases ts with _ | ⟨a, _ | ⟨b, _ | ⟨c, rest⟩⟩⟩ <;>
    simp [Model.set_input_tensor, isOkE, hae, had]

/-- C9 (implicit): a bare non-list argument to `set_input_tensor` is wrapped
into a one-element list and handled identically, so on an encoder-bearing
stage a bare tensor succeeds and is routed to the encoder. -/
theorem set_input_tensor_bare_wraps (m : Model) (t : Option Tensor) :
    m.set_input_tensor (InputArg.single t) = m.set_input_tensor (InputArg.list [t]) ∧
    (m.add_encoder = true →
      m.set_input_tensor (InputArg.single t) =
        Except.ok { m with encoderInputTensor := t }) := by
  refine ⟨rfl, fun h => ?_⟩
  cases had : m.add_decoder <;> simp [Model.set_input_tensor, h, had]

/-- Witness for C9 on the concretely built full module. -/
theorem set_input_tensor_bare_wraps_witness :
    fullModel.set_input_tensor (InputArg.single (some tA)) =
      fullModel.set_input_tensor (InputArg.list [some tA]) ∧
    fullModel.set_input_tensor (InputArg.single (some tA)) =
      Except.ok { fullModel with encoderInputTensor := some tA } :=
  ⟨(set_input_tensor_bare_wraps fullModel (some tA)).1,
   (set_input_tensor_bare_wraps fullModel (some tA)).2 rfl⟩

/-- C8: evaluating the code, a save followed by a restore does NOT succeed:
`load_state_dict` invokes the nonexistent attribute
`encoder_embeddingload_state_dict` on the encoder embedding and raises
AttributeError before restoring any of the four sections. This contradicts
the stated restore contract (the spec itself flags the line as a defect). -/
theorem load_after_save_raises :
    ∃ sd, fullModel.state_dict_for_save_checkpoint = Except.ok sd ∧
      fullModel.load_state_dict sd true = Except.error (PyError.attributeError
        "Embedding object has no attribute encoder_embeddingload_state_dict") :=
  ⟨_, rfl, rfl⟩

/-- Helper: a successful construction is `buildModel` at the resolved
`kv_channels`. -/
theorem mkModel_ok (cfg : Config) (initF : Nat → Nat → Nat → Int) (m : Model)
    (hm : mkModel cfg initF = Except.ok m) :
    ∃ kv, resolveKv cfg = Except.ok kv ∧ m = buildModel cfg kv initF := by
  unfold mkModel at hm
  cases hc : checkPosType cfg.position_embedding_type with
  | error e => rw [hc] at hm; exact absurd hm (by simp [Bind.bind, Except.bind])
  | ok u =>
    rw [hc] at hm
    cases hk : resolveKv cfg with
    | error e => rw [hk] at hm; exact absurd hm (by simp [Bind.bind, Except.bind])
    | ok kv =>
      rw [hk] at hm
      simp [Bind.bind, Except.bind, pure, Except.pure] at hm
      exact ⟨kv, rfl, hm.symm⟩

/-- C5: with `share_token_embeddings=True` and both encoder and decoder on
this pre-process stage, the decoder embedding table is the identical object
as the encoder embedding table: both references point at the same single
heap entry, no second table is allocated, and an in-place weight update made
through either reference is read back identically through the other. -/
theorem shared_embeddings_same_object (cfg : Config) (initF : Nat → Nat → Nat → Int)
    (m : Model)
    (hs : cfg.share_token_embeddings = true) (he : cfg.add_encoder = true)
    (hd : cfg.add_decoder = true) (hp : cfg.pre_process = true)
    (hm : mkModel cfg initF = Except.ok m) :
    ∃ re rd, m.encoder_embedding = some re ∧ m.decoder_embedding = some rd ∧
      re = rd ∧ m.embHeap.length = 1 ∧
      (∀ w i j, (m.writeEmbedding re w).embeddingWeight rd i j = some (w i j)) ∧
      (∀ w i j, (m.writeEmbedding rd w).embeddingWeight re i j = some (w i j)) := by
  obtain ⟨kv, -, hmeq⟩ := mkModel_ok cfg initF m hm
  subst hmeq
  refine ⟨0, 0, ?_, ?_, rfl, ?_, ?_, ?_⟩ <;>
    simp [buildModel, Model.writeEmbedding, Model.embeddingWeight, hs, he, hd, hp]

/-- Witness for C5 on the concretely built full module. -/
theorem shared_embeddings_same_object_witness :
    ∃ re rd, fullModel.encoder_embedding = some re ∧
      fullModel.decoder_embedding = some rd ∧
      re = rd ∧ fullModel.embHeap.length = 1 ∧
      (∀ w i j, (fullModel.writeEmbedding re w).embeddingWeight rd i j = some (w i j)) ∧
      (∀ w i j, (fullModel.writeEmbedding rd w).embeddingWeight re i j = some (w i j)) :=
  shared_embeddings_same_object (fullConfig 7) initOne fullModel rfl rfl rfl rfl rfl

/-- C6: with `share_token_embeddings=True`, a pre-process decoder stage that
has no local encoder embedding (`add_encoder=False`) allocates a fresh
decoder embedding table whose weights are all zero immediately after
construction, before any external synchronization. -/
theorem decoder_embedding_zero_when_shared_remote (cfg : Config)
    (initF : Nat → Nat → Nat → Int) (m : Model)
    (hs : cfg.share_token_embeddings = true) (hne : cfg.add_encoder = false)
    (hd : cfg.add_decoder = true) (hp : cfg.pre_process = true)
    (hm : mkModel cfg initF = Except.ok m) :
    ∃ rd, m.encoder_embedding = none ∧ m.decoder_embedding = some rd ∧
      m.embHeap.length = 1 ∧
      (∀ i j, m.embeddingWeight rd i j = some 0) := by
  obtain ⟨kv, -, hmeq⟩ := mkModel_ok cfg initF m hm
  subst hmeq
  refine ⟨0, ?_, ?_, ?_, ?_⟩ <;>
    simp [buildModel, Model.embeddingWeight, zeroWeights, hs, hne, hd, hp]

/-- Witness for C6 on a concretely built decoder-only module. -/
theorem decoder_embedding_zero_when_shared_remote_witness :
    ∃ rd, decOnlyModel.encoder_embedding = none ∧
      decOnlyModel.decoder_embedding = some rd ∧
      decOnlyModel.embHeap.length = 1 ∧
      (∀ i j, decOnlyModel.embeddingWeight rd i j = some 0) :=
  decoder_embedding_zero_when_shared_remote decOnlyConfig initOne decOnlyModel
    rfl rfl rfl rfl rfl

/-- Matching encoder/decoder token-id batches of shape `[b, s]` (with
attention masks), and optionally labels, as passed to `forward`. -/
def seqArgs (b s : Nat) (e1 me e2 md : TExpr) (lab : Option Tensor) : FwdArgs :=
  { enc_input_ids := some { expr := e1, shape := [b, s], dtype := DType.int64 },
    enc_attn_mask := some { expr := me, shape := [b, s], dtype := DType.int64 },
    dec_input_ids := some { expr := e2, shape := [b, s], dtype := DType.int64 },
    dec_attn_mask := some { expr := md, shape := [b, s], dtype := DType.int64 },
    labels := lab }

/-- C1: on a full stage (`add_encoder=add_decoder=pre_process=post_process=True`,
absolute positions), `forward` on `[b, s]` token batches with no labels
returns the logits transposed to batch-major, of shape `[b, s, vocab_size]`
(a transpose of the head projection); the same call with `[b, s]` labels
returns the per-token cross-entropy loss of shape `[b, s]`, a bare transpose
of the `vocab_parallel_cross_entropy` output with no reduction applied. -/
theorem forward_logits_and_loss_shapes (b s v : Nat) (e1 me e2 md e3 : TExpr) :
    ∃ m, mkModel (fullConfig v) initOne = Except.ok m ∧
      (∃ evs t, m.forward (seqArgs b s e1 me e2 md none) =
          Except.ok (FwdOut.tensor (some t), evs) ∧
        t.shape = [b, s, v] ∧
        ∃ dle, t.expr = TExpr.transpose01 (TExpr.headSharedOut dle)) ∧
      (∃ evs t, m.forward (seqArgs b s e1 me e2 md
            (some { expr := e3, shape := [b, s], dtype := DType.int64 })) =
          Except.ok (FwdOut.tensor (some t), evs) ∧
        t.shape = [b, s] ∧
        ∃ le, t.expr = TExpr.transpose01 (TExpr.xentOut le (TExpr.transpose01 e3))) := by
  exact ⟨_, rfl, ⟨_, _, rfl, rfl, _, rfl⟩, ⟨_, _, rfl, rfl, _, rfl⟩⟩

/-- Helper: encoder input resolution only ever performs encoder-side calls. -/
theorem encInputResolve_encoder_events_only (m : Model) (a : FwdArgs)
    (x y : Option Tensor) (ev : List Event)
    (h : encInputResolve m a = Except.ok (x, y, ev)) :
    ev = [] ∨ ev = [Event.encoderEmbeddingCall] ∨
      ev = [Event.encoderEmbeddingCall, Event.encoderRelPosBiasCall] := by
  unfold encInputResolve at h
  repeat' split at h
  all_goals simp_all

/-- C2: with `output_enc_hidden_only=True`, `forward` performs no decoder
computation — the decoder embedding, the decoder relative-position biases,
and the coordinator's decode path are never invoked — and returns the
encoder hidden state: freshly encoded from the resolved encoder input when
the local encoder is present (and no `enc_output` was supplied), otherwise
the coordinator's stored hidden state. -/
theorem encode_only_no_decoder_work (m : Model) (a : FwdArgs)
    (h : a.output_enc_hidden_only = true)
    (r : FwdOut) (evs : List Event)
    (hok : m.forward a = Except.ok (r, evs)) :
    (Event.decoderEmbeddingCall ∉ evs ∧ Event.decoderRelPosBiasCall ∉ evs ∧
     Event.decoderCrossRelPosBiasCall ∉ evs ∧ Event.coordForwardCall ∉ evs) ∧
    ∃ enc_input enc_rel ev1,
      encInputResolve m a = Except.ok (enc_input, enc_rel, ev1) ∧
      r = (if a.enc_output.isNone && m.encoder_present then
             FwdOut.tensor (some (coordEncode m enc_input a.enc_attn_mask))
           else FwdOut.tensor m.encoder_hidden_state) := by
  unfold Model.forward at hok
  cases hres : encInputResolve m a with
  | error e => rw [hres] at hok; cases hok
  | ok trip =>
    obtain ⟨enc_input, enc_rel, ev1⟩ := trip
    rw [hres, h] at hok
    simp only [if_true] at hok
    have hev1 := encInputResolve_encoder_events_only m a enc_input enc_rel ev1 hres
    by_cases hc : (a.enc_output.isNone && m.encoder_present) = true
    · rw [hc] at hok
      simp only [if_true] at hok
      injection hok with hpair
      injection hpair with hr hevs
      subst hr
      subst hevs
      constructor
      · rcases hev1 with h1 | h1 | h1 <;> subst h1 <;> decide
      · exact ⟨enc_input, enc_rel, ev1, rfl, by simp [hc]⟩
    · rw [Bool.not_eq_true] at hc
      rw [hc] at hok
      simp only [Bool.false_eq_true, if_false] at hok
      injection hok with hpair
      injection hpair with hr hevs
      subst hr
      subst hevs
      constructor
      · rcases hev1 with h1 | h1 | h1 <;> subst h1 <;> decide
      · exact ⟨enc_input, enc_rel, ev1, rfl, by simp [hc]⟩

/-- Concrete encode-only forward arguments. -/
def encOnlyArgs : FwdArgs :=
  { enc_input_ids := some { expr := TExpr.sym "eIds", shape := [2, 5], dtype := DType.int64 },
    enc_attn_mask := some { expr := TExpr.sym "eMask", shape := [2, 5], dtype := DType.int64 },
    output_enc_hidden_only := true }

/-- The result of the concrete encode-only forward call. -/
def encOnlyRun : FwdOut × List Event :=
  match fullModel.forward encOnlyArgs with
  | Except.ok p => p
  | Except.error _ => (FwdOut.tensor none, [])

/-- Witness for C2 on the concretely built full module. -/
theorem encode_only_no_decoder_work_witness :
    (Event.decoderEmbeddingCall ∉ encOnlyRun.2 ∧
     Event.decoderRelPosBiasCall ∉ encOnlyRun.2 ∧
     Event.decoderCrossRelPosBiasCall ∉ encOnlyRun.2 ∧
     Event.coordForwardCall ∉ encOnlyRun.2) ∧
    ∃ enc_input enc_rel ev1,
      encInputResolve fullModel encOnlyArgs = Except.ok (enc_input, enc_rel, ev1) ∧
      encOnlyRun.1 = (if encOnlyArgs.enc_output.isNone && fullModel.encoder_present then
             FwdOut.tensor (some (coordEncode fullModel enc_input encOnlyArgs.enc_attn_mask))
           else FwdOut.tensor fullModel.encoder_hidden_state) :=
  encode_only_no_decoder_work fullModel encOnlyArgs rfl encOnlyRun.1 encOnlyRun.2 rfl

/-- C10 (implicit): with `output_enc_hidden_only=True` and a caller-supplied
`enc_output`, the supplied tensor is discarded: the call returns the
coordinator's stored encoder hidden state (whether or not the local encoder
is present), and the encode step is skipped. -/
theorem encode_only_discards_supplied_enc_output (m : Model) (a : FwdArgs) (t : Tensor)
    (r : FwdOut) (evs : List Event)
    (h1 : a.output_enc_hidden_only = true) (h2 : a.enc_output = some t)
    (hok : m.forward a = Except.ok (r, evs)) :
    r = FwdOut.tensor m.encoder_hidden_state ∧ Event.encodeCall ∉ evs := by
  unfold Model.forward at hok
  cases hres : encInputResolve m a with
  | error e => rw [hres] at hok; cases hok
  | ok trip =>
    obtain ⟨enc_input, enc_rel, ev1⟩ := trip
    rw [hres, h1] at hok
    simp only [h2, Option.isNone_some, Bool.false_and, Bool.false_eq_true, if_false,
      if_true] at hok
    injection hok with hpair
    injection hpair with hr hevs
    subst hr
    subst hevs
    have hev1 := encInputResolve_encoder_events_only m a enc_input enc_rel ev1 hres
    exact ⟨rfl, by rcases hev1 with h | h | h <;> subst h <;> decide⟩

/-- A decoder-only module holding a previously stored encoder hidden state. -/
def storedHiddenModel : Model := { decOnlyModel with encoder_hidden_state := some tB }

/-- Encode-only forward arguments that also supply an `enc_output`. -/
def suppliedEncOutArgs : FwdArgs :=
  { enc_output := some tA, output_enc_hidden_only := true }

/-- The result of the concrete supplied-`enc_output` encode-only call. -/
def suppliedEncOutRun : FwdOut × List Event :=
  match storedHiddenModel.forward suppliedEncOutArgs with
  | Except.ok p => p
  | Except.error _ => (FwdOut.tensor none, [])

/-- Witness for C10: the stored hidden state, not the supplied tensor, comes
back. -/
theorem encode_only_discards_supplied_enc_output_witness :
    suppliedEncOutRun.1 = FwdOut.tensor storedHiddenModel.encoder_hidden_state ∧
    Event.encodeCall ∉ suppliedEncOutRun.2 :=
  encode_only_discards_supplied_enc_output storedHiddenModel suppliedEncOutArgs tA
    suppliedEncOutRun.1 suppliedEncOutRun.2 rfl rfl rfl

/-- Configuration varying the precision and the fp16 cross-entropy flag. -/
def precConfig (p : Nat) (f : Bool) : Config :=
  { fullConfig 7 with precision := p, fp16_cross_entropy := f }

/-- The module built from `precConfig p f`. -/
def precModel (p : Nat) (f : Bool) : Model := buildModel (precConfig p f) 4 initOne

/-- Forward arguments carrying labels, exercising the loss path. -/
def labArgs : FwdArgs :=
  seqArgs 2 3 (TExpr.sym "e1") (TExpr.sym "m1") (TExpr.sym "e2") (TExpr.sym "m2")
    (some { expr := TExpr.sym "lab", shape := [2, 3], dtype := DType.int64 })

/-- C7: on the labels path, the vocabulary-partitioned cross-entropy runs in
full precision (the logits are cast via `.float()`) whenever
`fp16_cross_entropy` is disabled; with the flag enabled it runs directly on
half-precision logits, and if the logits dtype is not half the call fails on
the precision assertion. -/
theorem cross_entropy_precision_policy (p : Nat) (f : Bool) :
    (f = false → ∃ evs t, (precModel p f).forward labArgs =
        Except.ok (FwdOut.tensor (some t), evs) ∧
      Event.crossEntropyCall DType.float32 ∈ evs ∧
      (∀ d, Event.crossEntropyCall d ∈ evs → d = DType.float32) ∧
      ∃ le lb, t.expr = TExpr.transpose01 (TExpr.xentOut (TExpr.toFloat le) lb)) ∧
    (f = true → dtypeOfPrecision p = DType.float16 → ∃ evs t,
        (precModel p f).forward labArgs = Except.ok (FwdOut.tensor (some t), evs) ∧
      Event.crossEntropyCall DType.float16 ∈ evs) ∧
    (f = true → dtypeOfPrecision p ≠ DType.float16 →
        (precModel p f).forward labArgs =
          Except.error (PyError.assertionError "token_logits.dtype == torch.half")) := by
  refine ⟨fun hf => ?_, fun hf hd => ?_, fun hf hd => ?_⟩ <;> subst hf
  · refine ⟨[Event.encoderEmbeddingCall, Event.decoderEmbeddingCall,
      Event.coordForwardCall, Event.headCall, Event.crossEntropyCall DType.float32],
      _, rfl, by decide, ?_, _, _, rfl⟩
    intro d hdm
    simpa using hdm
  · have hp : p = 16 := by
      by_contra hne
      simp [dtypeOfPrecision, hne] at hd
    subst hp
    exact ⟨[Event.encoderEmbeddingCall, Event.decoderEmbeddingCall,
      Event.coordForwardCall, Event.headCall, Event.crossEntropyCall DType.float16],
      _, rfl, by decide⟩
  · have hne : p ≠ 16 := by
      intro h
      exact hd (by simp [dtypeOfPrecision, h])
    have hD : dtypeOfPrecision p = DType.float32 := by
      simp [dtypeOfPrecision, hne]
    simp [precModel, precConfig, fullConfig, Model.forward, encInputResolve,
      decInputResolve, labArgs, seqArgs, buildModel, embedForward, build_position_ids,
      relPosBiasForward, coordForward, coordArgExprs, coordEncode, headForward,
      vocab_parallel_cross_entropy, Tensor.transpose01, Tensor.toFloat, size1, hD,
      dtypeOfPrecision, hne]
    rfl

/-- Witness for C7 at concrete precisions: full-precision invocation at
precision 32 with the flag off, half-precision invocation at precision 16
with the flag on, and the assertion failure at precision 32 with the flag
on. -/
theorem cross_entropy_precision_policy_witness :
    (∃ evs t, (precModel 32 false).forward labArgs =
        Except.ok (FwdOut.tensor (some t), evs) ∧
      Event.crossEntropyCall DType.float32 ∈ evs ∧
      (∀ d, Event.crossEntropyCall d ∈ evs → d = DType.float32) ∧
      ∃ le lb, t.expr = TExpr.transpose01 (TExpr.xentOut (TExpr.toFloat le) lb)) ∧
    (∃ evs t, (precModel 16 true).forward labArgs =
        Except.ok (FwdOut.tensor (some t), evs) ∧
      Event.crossEntropyCall DType.float16 ∈ evs) ∧
    ((precModel 32 true).forward labArgs =
        Except.error (PyError.assertionError "token_logits.dtype == torch.half")) :=
  ⟨(cross_entropy_precision_policy 32 false).1 rfl,
   (cross_entropy_precision_policy 16 true).2.1 rfl (by decide),
   (cross_entropy_precision_policy 32 true).2.2 rfl (by decide)⟩

end NemoT5
